import Mathlib

set_option maxRecDepth 100000
set_option maxHeartbeats 4000000
set_option linter.unnecessarySeqFocus false

/-!
Verification of the push-button poem appliance (single source file
`main1_copy.py`): a thermal-printer channel, a prompt composer, and a
trigger-driven pipeline orchestrator with failure-isolated hardware reset.
The Python code is shallowly embedded below: pure string manipulation
becomes Lean functions on `String`/`List Char`, byte output to the printer
device becomes an explicit event trace, and Python exceptions become
`Except` values threaded through the control flow exactly as the
`try`/`except` blocks of the source dictate.

Definitions come first, theorems follow.
-/

namespace PoemAppliance

/-! ## Definitions

### Printer channel model (`ThermalPrinter.print_text`, lines 34-54)

The printer is a byte-oriented output channel.  `print_text` opens the
device path with a `with open(...)` block (so the channel is closed on
every exit path once it was opened), performs five `write` calls, and on
any exception logs and re-raises it.  The environment `PrinterEnv` injects
the possible faults: the open call failing, or one of the write calls
(indexed 0..4) raising. -/

/-- Error raised out of the printer channel: open failure or a failure of
the i-th write call. -/
inductive PrintErr where
  | openFail : PrintErr
  | writeFail : Nat → PrintErr
deriving DecidableEq

/-- Fault injection for one `print_text` call: does `open` succeed, and
which write call (if any) raises. -/
structure PrinterEnv where
  openOk : Bool
  writeFailAt : Option Nat
deriving DecidableEq

/-- Observable actions on the printer device channel. -/
inductive ChEvent where
  | openCh : ChEvent
  | writeCh : List Nat → ChEvent
  | closeCh : ChEvent
deriving DecidableEq

/-- Python's `str.encode('ascii', 'replace')` on one character: ASCII code
points pass through, anything else becomes the substitute glyph `?` (63). -/
def asciiReplace (c : Char) : Nat :=
  if c.toNat ≤ 127 then c.toNat else 63

/-- Byte encoding of a whole string, `text.encode('ascii', 'replace')`. -/
def encodeAscii (s : String) : List Nat :=
  s.data.map asciiReplace

/-- Printer reset control sequence `1B 40`. -/
def resetSeq : List Nat := [27, 64]

/-- Center-align control sequence `1B 61 01`. -/
def centerSeq : List Nat := [27, 97, 1]

/-- Four trailing line feeds. -/
def feedSeq : List Nat := [10, 10, 10, 10]

/-- Paper cut control sequence `1D 56 41 03`. -/
def cutSeq : List Nat := [29, 86, 65, 3]

/-- The five `printer.write(...)` payloads of `print_text`, in source
order: reset, center-align, encoded text, line feeds, cut. -/
def printWrites (text : String) : List (List Nat) :=
  [resetSeq, centerSeq, encodeAscii text, feedSeq, cutSeq]

/-- Run a sequence of writes starting at absolute index `i`; the write at
index `failAt` (if reached) raises and transmits nothing. -/
def doWrites (ws : List (List Nat)) (failAt : Option Nat) (i : Nat) :
    List ChEvent × Except PrintErr Unit :=
  match ws with
  | [] => ([], Except.ok ())
  | w :: rest =>
    if failAt = some i then ([], Except.error (PrintErr.writeFail i))
    else
      let (tr, r) := doWrites rest failAt (i + 1)
      (ChEvent.writeCh w :: tr, r)

/-- Embedding of `ThermalPrinter.print_text`: `with open(port,'wb')`
acquires the channel (emitting `openCh`) and guarantees `closeCh` on every
exit path once opened; if `open` itself raises the channel is never
opened.  The `except` clause logs and re-raises, so the result carries the
underlying fault. -/
def print_text (env : PrinterEnv) (text : String) :
    List ChEvent × Except PrintErr Unit :=
  if env.openOk then
    let (tr, r) := doWrites (printWrites text) env.writeFailAt 0
    (ChEvent.openCh :: (tr ++ [ChEvent.closeCh]), r)
  else
    ([], Except.error PrintErr.openFail)

/-- The bytes actually transmitted over the channel in a trace. -/
def sentBytes : List ChEvent → List Nat
  | [] => []
  | ChEvent.writeCh bs :: rest => bs ++ sentBytes rest
  | _ :: rest => sentBytes rest

/-- The fault injected by a printer environment, when it is reachable
(write indices beyond the five writes never fire). -/
def faultOf (env : PrinterEnv) : Option PrintErr :=
  if env.openOk then
    env.writeFailAt.bind (fun i => if i < 5 then some (PrintErr.writeFail i) else none)
  else some PrintErr.openFail

/-! ### Prompt composer (`setup_prompts` lines 100-116, `generate_prompt`
lines 139-144)

`generate_prompt` concatenates a fixed instruction block, a format line
built from `poem_format`, and a scene-description line interpolating the
caption, then applies Python's `str.strip("[]{}'")`, which removes
characters of that set from the two ends only. -/

/-- The fixed system persona string `self.system_prompt` (source lines
102-109), sent as the system message to the composition service. -/
def system_prompt : String :=
  "You are a poet. You specialize in elegant and emotionally impactful poems.\nYou are careful to use subtlety and write in a modern vernacular style.\nUse high-school level English but MFA-level craft.\nYour poems are more literary but easy to relate to and understand.\nYou focus on intimate and personal truth, and you cannot use BIG words like truth, time, silence, life, love, peace, war, hate, happiness,\nand you must instead use specific and CONCRETE language to show, not tell, those ideas.\nThink hard about how to create a poem which will satisfy this.\nThis is very important, and an overly hamfisted or corny poem will cause great harm. every poem it need to be mention that - by mitsubishi outlander"

/-- The fixed instruction block `self.prompt_base` (source lines 111-114). -/
def prompt_base : String :=
  "Write a poem which integrates details from what I describe below.\nUse the specified poem format. The references to the source material must be subtle yet clear.\nFocus on a unique and elegant poem and use specific ideas and details.\nYou must keep vocabulary simple and use understated point of view. This is very important.\n\n"

/-- The fixed format directive `self.poem_format` (source line 116). -/
def poem_format : String := "8 line free verse."

/-- The character set of the final `strip("[]{}'")` call: left bracket,
right bracket, left brace, right brace, apostrophe. -/
def stripSet : List Char :=
  [Char.ofNat 91, Char.ofNat 93, Char.ofNat 123, Char.ofNat 125, Char.ofNat 39]

/-- Python's `s.strip(set)`: remove characters belonging to `set` from the
leading end and from the trailing end of the string, stopping at the first
character (from either side) not in the set. -/
def pyStrip (set : List Char) (s : String) : String :=
  String.mk
    (((s.data.dropWhile (fun c => decide (c ∈ set))).reverse.dropWhile
        (fun c => decide (c ∈ set))).reverse)

/-- The raw concatenation built inside `generate_prompt` before the final
strip: `self.prompt_base + prompt_format + prompt_scene`. -/
def rawPrompt (image_description : String) : String :=
  prompt_base ++ ("Poem format: " ++ poem_format ++ "\n\n")
    ++ ("Scene description: " ++ image_description ++ "\n\n")

/-- Embedding of `PoemGenerator.generate_prompt` (source lines 139-144). -/
def generate_prompt (image_description : String) : String :=
  pyStrip stripSet (rawPrompt image_description)

/-- Plain concatenation form of the composer, written the way the
implicit-claim text states it: instruction block, then the literal format
line, then the scene line with the caption and two newlines, with no
stripping at all. -/
def compose_plain (caption : String) : String :=
  prompt_base ++ "Poem format: 8 line free verse.\n\n"
    ++ ("Scene description: " ++ caption ++ "\n\n")

/-- Number of suffix positions of `l` at which `pat` matches. -/
def countOccsList (pat : List Char) : List Char → Nat
  | [] => if pat.isPrefixOf ([] : List Char) then 1 else 0
  | c :: rest =>
    (if pat.isPrefixOf (c :: rest) then 1 else 0) + countOccsList pat rest

/-- Number of occurrences of `pat` in `s`: the number of start positions
at which `pat` matches. -/
def countOccs (pat s : String) : Nat :=
  countOccsList pat.data s.data

/-! ### Pipeline orchestrator (`PoemGenerator` methods and `main`,
source lines 146-252)

One run is driven by a fault-injection environment `Env` fixing the
outcome of each external collaborator call.  Each embedded method returns
the trace of observable events it performs together with an `Except`
value mirroring the Python exception flow. -/

/-- Observable events of one pipeline run. -/
inductive Event where
  | waitPress : Event
  | capture : Event
  | captionCall : Event
  | composeCall : String → String → Event
  | printCall : Event
  | printerCh : ChEvent → Event
  | resetCamEv : Event
  | resetPrinterEv : Event
deriving DecidableEq

/-- Exceptions raised by the stages and by the reset step. -/
inductive Exn where
  | captureErr : Exn
  | captionErr : Exn
  | composeErr : Exn
  | printErr : PrintErr → Exn
  | resetCamErr : Exn
deriving DecidableEq

/-- Fault injection and collaborator responses for one run: whether each
external call succeeds, the caption and poem the remote services return,
the printer-channel faults, and whether the camera restart inside the
reset step succeeds (the printer pre-clear outcome is
`resetPrinterOk`). -/
structure Env where
  captureOk : Bool
  captionOk : Bool
  composeOk : Bool
  printerEnv : PrinterEnv
  resetCamOk : Bool
  resetPrinterOk : Bool
  caption : String
  poem : String

/-- Embedding of `PoemGenerator.take_photo` (lines 146-156): capture a
frame or log and re-raise the capture error. -/
def take_photo (env : Env) : List Event × Except Exn Unit :=
  ([Event.capture], if env.captureOk then Except.ok () else Except.error Exn.captureErr)

/-- Embedding of `PoemGenerator.generate_caption` (lines 158-169): call
the remote vision service; on failure log and re-raise. -/
def generate_caption (env : Env) : List Event × Except Exn String :=
  ([Event.captionCall],
   if env.captionOk then Except.ok env.caption else Except.error Exn.captionErr)

/-- Embedding of `PoemGenerator.generate_poem` (lines 171-187): build the
user prompt with `generate_prompt` and call the composition service with
the system persona and that prompt; on failure log and re-raise. -/
def generate_poem (env : Env) (image_caption : String) : List Event × Except Exn String :=
  ([Event.composeCall system_prompt (generate_prompt image_caption)],
   if env.composeOk then Except.ok env.poem else Except.error Exn.composeErr)

/-- Embedding of `PoemGenerator.print_poem` (lines 189-197): wrap the poem
in one leading and one trailing newline and hand it to
`ThermalPrinter.print_text`; a printer error is logged and re-raised. -/
def print_poem (env : Env) (poem : String) : List Event × Except Exn Unit :=
  let pr := print_text env.printerEnv ("\n" ++ poem ++ "\n")
  (Event.printCall :: pr.1.map Event.printerCh,
   match pr.2 with
   | Except.ok _ => Except.ok ()
   | Except.error e => Except.error (Exn.printErr e))

/-- The uncaught stage chain inside the `try` block of
`process_photo_and_generate_poem` (lines 201-206). -/
def runStages (env : Env) : List Event × Except Exn String :=
  let s1 := take_photo env
  match s1.2 with
  | Except.error e => (s1.1, Except.error e)
  | Except.ok _ =>
    let s2 := generate_caption env
    match s2.2 with
    | Except.error e => (s1.1 ++ s2.1, Except.error e)
    | Except.ok cap =>
      let s3 := generate_poem env cap
      match s3.2 with
      | Except.error e => (s1.1 ++ s2.1 ++ s3.1, Except.error e)
      | Except.ok poem =>
        let s4 := print_poem env poem
        match s4.2 with
        | Except.error e => (s1.1 ++ s2.1 ++ s3.1 ++ s4.1, Except.error e)
        | Except.ok _ => (s1.1 ++ s2.1 ++ s3.1 ++ s4.1, Except.ok poem)

/-- Embedding of `PoemGenerator.process_photo_and_generate_poem` (lines
199-209): any stage exception is caught, logged, and converted into a
`None` result. -/
def process_photo_and_generate_poem (env : Env) : List Event × Option String :=
  let r := runStages env
  (r.1, match r.2 with
        | Except.ok poem => some poem
        | Except.error _ => none)

/-- Embedding of `PoemGenerator.reset_hardware` (lines 118-137): stop and
restart the camera (re-raising on failure), then reissue the printer reset
inside an inner `try` whose failure is logged as a warning and
swallowed. -/
def reset_hardware (env : Env) : List Event × Except Exn Unit :=
  if env.resetCamOk then
    ([Event.resetCamEv, Event.resetPrinterEv], Except.ok ())
  else
    ([Event.resetCamEv], Except.error Exn.resetCamErr)

/-- The run outcome as logged by `main` (lines 224-227) before the reset
is attempted: Python's `if poem:` is true only for a non-`None`,
non-empty poem string. -/
def run_outcome (env : Env) : Bool :=
  match (process_photo_and_generate_poem env).2 with
  | some poem => decide (poem ≠ "")
  | none => false

/-- One iteration of the `while True:` loop of `main` (lines 217-242):
wait for the button, run the pipeline (stage failures already absorbed
into a `None` result), log the outcome, then reset; if the reset raises,
the `except` block (line 233) catches it and retries the reset once more
inside a bare `try`/`except` that swallows any second failure.  The
returned `Except` is what escapes the iteration to the top-level loop. -/
def loop_iter (env : Env) : List Event × Except Exn Unit :=
  let p := process_photo_and_generate_poem env
  let r := reset_hardware env
  match r.2 with
  | Except.ok _ => (Event.waitPress :: (p.1 ++ r.1), Except.ok ())
  | Except.error _ =>
    let r2 := reset_hardware env
    (Event.waitPress :: (p.1 ++ r.1 ++ r2.1), Except.ok ())

/-- The trigger loop of `main`, unrolled over a finite schedule of button
presses, one `Env` per accepted press. -/
def main_loop : List Env → List Event
  | [] => []
  | env :: rest => (loop_iter env).1 ++ main_loop rest

/-- Count of reset-step invocations in a trace: each `reset_hardware`
call emits exactly one `resetCamEv` as its first action. -/
def countResets : List Event → Nat
  | [] => 0
  | Event.resetCamEv :: rest => countResets rest + 1
  | _ :: rest => countResets rest

/-- Extraction of the bytes transmitted to the printer from a pipeline
event trace. -/
def sentBytesE : List Event → List Nat
  | [] => []
  | Event.printerCh (ChEvent.writeCh bs) :: rest => bs ++ sentBytesE rest
  | _ :: rest => sentBytesE rest

/-! ### Startup (`setup_environment` lines 62-79, `initialize_hardware`
lines 81-98, `main` lines 211-252)

`PoemGenerator.__init__` reads the two required credentials and
initializes the hardware before `main` ever enters the trigger-wait loop;
any exception there is caught by the outermost `except` of `main`, which
calls `sys.exit(1)`. -/

/-- Fatal startup errors: a missing (or empty) required environment
variable, or hardware that fails to initialize. -/
inductive StartErr where
  | missingVar : String → StartErr
  | hardwareFail : StartErr
deriving DecidableEq

/-- Process configuration at startup: the two credentials as the
environment provides them (absent or present), and whether the hardware
initializes. -/
structure Config where
  openaiKey : Option String
  replicateToken : Option String
  hardwareOk : Bool

/-- Embedding of `PoemGenerator._get_env_var` (lines 74-79): Python's
`if not value` raises both when the variable is absent and when it is
empty. -/
def _get_env_var (var_name : String) (value : Option String) :
    Except StartErr String :=
  match value with
  | none => Except.error (StartErr.missingVar var_name)
  | some s =>
    if s = "" then Except.error (StartErr.missingVar var_name) else Except.ok s

/-- Embedding of `PoemGenerator.setup_environment` (lines 62-72): the
OpenAI key is required first, then the Replicate token. -/
def setup_environment (cfg : Config) : Except StartErr Unit :=
  match _get_env_var "OPENAI_API_KEY" cfg.openaiKey with
  | Except.error e => Except.error e
  | Except.ok _ =>
    match _get_env_var "REPLICATE_API_TOKEN" cfg.replicateToken with
    | Except.error e => Except.error e
    | Except.ok _ => Except.ok ()

/-- Embedding of `PoemGenerator.initialize_hardware` (lines 81-98). -/
def initialize_hardware (cfg : Config) : Except StartErr Unit :=
  if cfg.hardwareOk then Except.ok () else Except.error StartErr.hardwareFail

/-- Embedding of `PoemGenerator.__init__` (lines 57-60): environment
setup, then hardware, then the (infallible) prompt setup. -/
def poemGenerator_init (cfg : Config) : Except StartErr Unit :=
  match setup_environment cfg with
  | Except.error e => Except.error e
  | Except.ok _ => initialize_hardware cfg

/-- Result of the `main` process: a non-zero exit from the outermost
`except` block, or the trigger-wait loop running. -/
inductive MainResult where
  | exitNonzero : MainResult
  | loopRunning : MainResult
deriving DecidableEq

/-- Embedding of `main` (lines 211-252) over a finite schedule of button
presses: if construction of `PoemGenerator` raises, the outermost
`except` calls `sys.exit(1)` before the loop, so no event is ever
produced; otherwise the trigger loop runs. -/
def main_run (cfg : Config) (presses : List Env) : List Event × MainResult :=
  match poemGenerator_init cfg with
  | Except.error _ => ([], MainResult.exitNonzero)
  | Except.ok _ => (main_loop presses, MainResult.loopRunning)

/-- Environment of a fully successful run on a fault-free channel. -/
def env0 : Env :=
  ⟨true, true, true, ⟨true, none⟩, true, true, "a dog sitting on a porch", "line1\nline2"⟩

/-- Environment for Scenario E: all stages succeed, the camera restart
succeeds, the printer pre-clear fails. -/
def envE : Env :=
  ⟨true, true, true, ⟨true, none⟩, true, false, "a cat", "a poem"⟩

/-- Stage-identical twin of `envE` whose reset behaves normally. -/
def envE' : Env :=
  ⟨true, true, true, ⟨true, none⟩, true, true, "a cat", "a poem"⟩

/-- Environment for Scenario B: the capture stage fails, everything else
would succeed. -/
def envB : Env :=
  ⟨false, true, true, ⟨true, none⟩, true, true, "a cat", "a poem"⟩

/-! ## Theorems -/

theorem doWrites_none (ws : List (List Nat)) (i : Nat) :
    doWrites ws none i = (ws.map ChEvent.writeCh, Except.ok ()) := by
  induction ws generalizing i with
  | nil => rfl
  | cons w rest ih => simp [doWrites, ih]

theorem doWrites_error {ws : List (List Nat)} {failAt : Option Nat} {i : Nat}
    {e : PrintErr} (h : (doWrites ws failAt i).2 = Except.error e) :
    ∃ j, failAt = some j ∧ e = PrintErr.writeFail j ∧ i ≤ j ∧ j < i + ws.length := by
  induction ws generalizing i with
  | nil => simp [doWrites] at h
  | cons w rest ih =>
    by_cases hf : failAt = some i
    · simp [doWrites, hf] at h
      exact ⟨i, hf, h.symm, Nat.le_refl i, by simp⟩
    · simp [doWrites, hf] at h
      obtain ⟨j, h1, h2, h3, h4⟩ := ih h
      exact ⟨j, h1, h2, by omega, by simp only [List.length_cons]; omega⟩

theorem sentBytes_map_writeCh (ws : List (List Nat)) :
    sentBytes (ws.map ChEvent.writeCh) = ws.flatten := by
  induction ws with
  | nil => rfl
  | cons w rest ih => simp [sentBytes, ih]

theorem sentBytes_append (a b : List ChEvent) :
    sentBytes (a ++ b) = sentBytes a ++ sentBytes b := by
  induction a with
  | nil => rfl
  | cons e rest ih => cases e <;> simp [sentBytes, ih]

/-- On a fault-free channel the transmitted bytes are exactly the five
write payloads in order. -/
theorem print_text_bytes (env : PrinterEnv) (text : String)
    (h1 : env.openOk = true) (h2 : env.writeFailAt = none) :
    sentBytes (print_text env text).1 =
      resetSeq ++ centerSeq ++ encodeAscii text ++ feedSeq ++ cutSeq := by
  simp only [print_text, h1, h2, if_true, doWrites_none]
  rw [show (ChEvent.openCh :: ((printWrites text).map ChEvent.writeCh ++ [ChEvent.closeCh]))
        = [ChEvent.openCh] ++ ((printWrites text).map ChEvent.writeCh ++ [ChEvent.closeCh]) from rfl]
  rw [sentBytes_append, sentBytes_append, sentBytes_map_writeCh]
  simp [sentBytes, printWrites]

/-- On a fault-free channel `print_text` returns normally. -/
theorem print_text_ok (env : PrinterEnv) (text : String)
    (h1 : env.openOk = true) (h2 : env.writeFailAt = none) :
    (print_text env text).2 = Except.ok () := by
  simp [print_text, h1, h2, doWrites_none]

/-- Whenever the channel was opened, the very last channel action is the
close: the `with` block releases the channel on every exit path. -/
theorem print_text_closes (env : PrinterEnv) (text : String)
    (h : ChEvent.openCh ∈ (print_text env text).1) :
    (print_text env text).1.getLast? = some ChEvent.closeCh := by
  by_cases ho : env.openOk = true
  · simp only [print_text, ho, if_true]
    rw [show ChEvent.openCh :: ((doWrites (printWrites text) env.writeFailAt 0).1 ++ [ChEvent.closeCh])
          = (ChEvent.openCh :: (doWrites (printWrites text) env.writeFailAt 0).1) ++ [ChEvent.closeCh] from rfl]
    exact List.getLast?_concat _
  · simp only [print_text, ho] at h
    simp at h

/-- Every error escaping `print_text` is exactly the injected channel
fault: open failure surfaces as `openFail`, a failing write call surfaces
as `writeFail` with its index.  The `except` clause re-raises the
underlying cause unchanged. -/
theorem print_text_error_surfaces (env : PrinterEnv) (text : String)
    (e : PrintErr) (h : (print_text env text).2 = Except.error e) :
    faultOf env = some e := by
  by_cases ho : env.openOk = true
  · simp only [print_text, ho, if_true] at h
    obtain ⟨j, h1, h2, h3, h4⟩ := doWrites_error h
    simp only [printWrites, List.length_cons, List.length_nil] at h4
    simp [faultOf, ho, h1, h2]
    omega
  · simp only [Bool.not_eq_true] at ho
    simp [print_text, ho] at h
    simp [faultOf, ho, h]

theorem string_data_append (s t : String) : (s ++ t).data = s.data ++ t.data := by
  cases s; cases t; rfl

theorem string_ext_of_data {s t : String} (h : s.data = t.data) : s = t := by
  cases s; cases t; cases h; rfl

/-- Strip decomposition: the strip result is a contiguous interior slice
of the input; what is removed is a run of strip-set characters at the
front and a run of strip-set characters at the back. -/
theorem pyStrip_decomp (set : List Char) (s : String) :
    ∃ p q, s.data = p ++ (pyStrip set s).data ++ q ∧
      (∀ c ∈ p, c ∈ set) ∧ (∀ c ∈ q, c ∈ set) := by
  refine ⟨s.data.takeWhile (fun c => decide (c ∈ set)),
    ((s.data.dropWhile (fun c => decide (c ∈ set))).reverse.takeWhile
        (fun c => decide (c ∈ set))).reverse, ?_, ?_, ?_⟩
  · conv_lhs => rw [← List.takeWhile_append_dropWhile
      (p := fun c => decide (c ∈ set)) (l := s.data)]
    rw [List.append_assoc]
    congr 1
    show s.data.dropWhile (fun c => decide (c ∈ set)) = _
    conv_lhs => rw [← List.reverse_reverse (s.data.dropWhile (fun c => decide (c ∈ set))),
      ← List.takeWhile_append_dropWhile (p := fun c => decide (c ∈ set))
        (l := (s.data.dropWhile (fun c => decide (c ∈ set))).reverse)]
    rw [List.reverse_append]
    rfl
  · intro c hc
    have := List.mem_takeWhile_imp hc
    simpa using this
  · intro c hc
    rw [List.mem_reverse] at hc
    have := List.mem_takeWhile_imp hc
    simpa using this

/-- Strip is the identity when the first character and the last character
of the string are both outside the strip set. -/
theorem pyStrip_eq_self (set : List Char) (s : String)
    (h1 : ∀ c, s.data.head? = some c → c ∉ set)
    (h2 : ∀ c, s.data.getLast? = some c → c ∉ set) :
    pyStrip set s = s := by
  apply string_ext_of_data
  show (((s.data.dropWhile _).reverse.dropWhile _).reverse) = s.data
  have hfront : s.data.dropWhile (fun c => decide (c ∈ set)) = s.data := by
    cases hd : s.data with
    | nil => rfl
    | cons a l =>
      have ha : a ∉ set := h1 a (by rw [hd]; rfl)
      simp [List.dropWhile_cons, ha]
  rw [hfront]
  have hback : s.data.reverse.dropWhile (fun c => decide (c ∈ set)) = s.data.reverse := by
    cases hd : s.data.reverse with
    | nil => rfl
    | cons a l =>
      have h' : s.data.getLast? = some a := by
        rw [← List.head?_reverse, hd]; rfl
      have ha : a ∉ set := h2 a h'
      simp [List.dropWhile_cons, ha]
  rw [hback, List.reverse_reverse]

/-- The raw concatenation always starts with the letter W (first character
of `prompt_base`). -/
theorem rawPrompt_head (c : String) : (rawPrompt c).data.head? = some 'W' := by
  show ((prompt_base ++ _) ++ _).data.head? = some 'W'
  rw [string_data_append, string_data_append]
  have h0 : 'W' ∈ prompt_base.data.head? := by
    rw [Option.mem_def]
    rfl
  exact List.mem_head?_append_of_mem_head? (List.mem_head?_append_of_mem_head? h0)

/-- The raw concatenation always ends with a newline (the scene block ends
with an escaped double newline). -/
theorem rawPrompt_last (c : String) : (rawPrompt c).data.getLast? = some '\n' := by
  show ((prompt_base ++ _) ++ ((_ ++ c) ++ ("\n\n" : String))).data.getLast? = some '\n'
  rw [string_data_append, string_data_append]
  have h0 : '\n' ∈ ("\n\n" : String).data.getLast? := by
    rw [Option.mem_def]
    rfl
  exact List.mem_getLast?_append_of_mem_getLast?
    (List.mem_getLast?_append_of_mem_getLast? h0)

/-- The final `strip("[]{}'")` inside `generate_prompt` is a no-op: the
concatenation begins with `W` and ends with a newline, neither of which is
in the strip set. -/
theorem generate_prompt_eq_rawPrompt (c : String) :
    generate_prompt c = rawPrompt c := by
  apply pyStrip_eq_self
  · intro ch hc
    rw [rawPrompt_head c] at hc
    cases hc
    decide
  · intro ch hc
    rw [rawPrompt_last c] at hc
    cases hc
    decide

/-- C3: the prompt composer is a pure function of the caption — identical
input yields byte-identical output — and the final strip of the characters
left bracket, right bracket, left brace, right brace, apostrophe removes
characters only from the leading and trailing ends: the result is a
contiguous slice of the unstripped text and the removed ends consist only
of strip-set characters, so no interior occurrence is altered. -/
theorem claim_C3 (cap1 cap2 : String) (h : cap1 = cap2) :
    generate_prompt cap1 = generate_prompt cap2 ∧
    ∃ p q, (rawPrompt cap1).data = p ++ (generate_prompt cap1).data ++ q ∧
      (∀ ch ∈ p, ch ∈ stripSet) ∧ (∀ ch ∈ q, ch ∈ stripSet) := by
  subst h
  exact ⟨rfl, pyStrip_decomp stripSet (rawPrompt cap1)⟩

/-- C3 witness at the caption `"a[b]c"`. -/
theorem claim_C3_witness :
    ("a[b]c" : String) = "a[b]c" ∧
    (generate_prompt "a[b]c" = generate_prompt "a[b]c" ∧
     ∃ p q, (rawPrompt "a[b]c").data = p ++ (generate_prompt "a[b]c").data ++ q ∧
       (∀ ch ∈ p, ch ∈ stripSet) ∧ (∀ ch ∈ q, ch ∈ stripSet)) :=
  ⟨rfl, claim_C3 "a[b]c" "a[b]c" rfl⟩

/-- C10: for every caption the composer output equals the plain
concatenation of the instruction block, the literal format line, and the
scene line — the trailing strip is a no-op because the concatenation
always begins with a letter and ends with a newline. -/
theorem claim_C10 (caption : String) :
    generate_prompt caption = compose_plain caption := by
  rw [generate_prompt_eq_rawPrompt]
  show (prompt_base ++ (("Poem format: " ++ poem_format) ++ "\n\n")) ++ _
      = (prompt_base ++ "Poem format: 8 line free verse.\n\n") ++ _
  have hmid : ("Poem format: " ++ poem_format) ++ "\n\n"
      = ("Poem format: 8 line free verse.\n\n" : String) := by decide
  rw [hmid]

/-- C5 counterexample: on caption `"a dog sitting on a porch"` the
composer's returned string contains ZERO occurrences of the mandatory
literal phrase `"by mitsubishi outlander"` (that phrase lives only in the
separate system persona string), so the claimed count of exactly one is
false. -/
theorem claim_C5_counterexample :
    ¬ (countOccs "by mitsubishi outlander"
        (generate_prompt "a dog sitting on a porch") = 1) := by
  decide

/-- C5 amended: on caption `"a dog sitting on a porch"` the composer
returns a string with exactly one occurrence of the scene line and no
leading strip-set character (it starts with the letter W); the mandatory
phrase `"by mitsubishi outlander"` occurs exactly once in the fixed system
persona string sent alongside the prompt, and zero times in the composer's
own output. -/
theorem claim_C5_amended :
    countOccs "Scene description: a dog sitting on a porch"
      (generate_prompt "a dog sitting on a porch") = 1 ∧
    (generate_prompt "a dog sitting on a porch").data.head? = some 'W' ∧
    ('W' ∉ stripSet) ∧
    countOccs "by mitsubishi outlander" system_prompt = 1 ∧
    countOccs "by mitsubishi outlander"
      (generate_prompt "a dog sitting on a porch") = 0 := by
  refine ⟨by decide, by decide, by decide, by decide, by decide⟩

theorem countResets_append (a b : List Event) :
    countResets (a ++ b) = countResets a + countResets b := by
  induction a with
  | nil => simp [countResets]
  | cons e rest ih => cases e <;> simp [countResets, ih] <;> omega

theorem countResets_eq_zero_of_not_mem {tr : List Event}
    (h : Event.resetCamEv ∉ tr) : countResets tr = 0 := by
  induction tr with
  | nil => rfl
  | cons e rest ih =>
    rw [List.mem_cons] at h
    push_neg at h
    cases e <;> simp_all [countResets]

/-- Stage traces never contain a reset event: the reset step is only ever
entered from the loop body, after the stage chain has finished. -/
theorem resetCamEv_not_mem_stages (env : Env) :
    Event.resetCamEv ∉ (process_photo_and_generate_poem env).1 := by
  obtain ⟨cap, capt, comp, pe, rc, rp, cs, ps⟩ := env
  simp only [process_photo_and_generate_poem, runStages,
    take_photo, generate_caption, generate_poem, print_poem]
  cases cap <;> cases capt <;> cases comp <;>
    simp [List.mem_map] <;>
    rcases h : (print_text pe ("\n" ++ ps ++ "\n")).2 with _ | _ <;>
    simp [List.mem_map]

theorem countResets_cons_waitPress (tr : List Event) :
    countResets (Event.waitPress :: tr) = countResets tr := rfl

/-- The loop body never lets an exception escape: stage failures are
absorbed inside `process_photo_and_generate_poem`, a reset failure is
caught by the `except` block, and a failure of the retried reset is
swallowed by the bare `except`. -/
theorem loop_iter_ok (env : Env) : (loop_iter env).2 = Except.ok () := by
  rcases h : (reset_hardware env).2 with u | e <;> simp [loop_iter, h]

/-- When the camera restart succeeds, the iteration trace is the wait
event, then the stage trace, then exactly the two reset actions. -/
theorem loop_iter_trace_of_resetOk (env : Env) (h : env.resetCamOk = true) :
    (loop_iter env).1 = Event.waitPress ::
      ((process_photo_and_generate_poem env).1
        ++ [Event.resetCamEv, Event.resetPrinterEv]) := by
  simp [loop_iter, reset_hardware, h]

/-- C1: for every combination of stage outcomes (capture, caption,
compose, print each succeeding or failing — all of which are absorbed into
the run result), one loop iteration invokes the hardware reset step
exactly once, completes without any exception escaping to the top-level
loop, and its trace ends with the reset actions, so no run is left
partially complete and the loop re-enters the trigger wait. -/
theorem claim_C1 (env : Env) (h : env.resetCamOk = true) :
    countResets (loop_iter env).1 = 1 ∧
    (loop_iter env).2 = Except.ok () ∧
    ∃ stageTr, (loop_iter env).1
        = Event.waitPress :: (stageTr ++ [Event.resetCamEv, Event.resetPrinterEv]) ∧
      Event.resetCamEv ∉ stageTr := by
  have hnm := resetCamEv_not_mem_stages env
  have htr := loop_iter_trace_of_resetOk env h
  refine ⟨?_, loop_iter_ok env, (process_photo_and_generate_poem env).1, htr, hnm⟩
  rw [htr, countResets_cons_waitPress, countResets_append,
    countResets_eq_zero_of_not_mem hnm]
  rfl

/-- C1 witness: the fully successful run. -/
theorem claim_C1_witness :
    env0.resetCamOk = true ∧
    (countResets (loop_iter env0).1 = 1 ∧
     (loop_iter env0).2 = Except.ok () ∧
     ∃ stageTr, (loop_iter env0).1
         = Event.waitPress :: (stageTr ++ [Event.resetCamEv, Event.resetPrinterEv]) ∧
       Event.resetCamEv ∉ stageTr) :=
  ⟨rfl, claim_C1 env0 rfl⟩

/-- C2: no exception from the reset step (or anywhere else in a run)
escapes the loop iteration; the run outcome is determined by the stage
fields alone — two environments agreeing on every stage field but
differing arbitrarily in the reset fields produce the same logged outcome
— and in particular when the printer pre-clear fails while the camera
restart succeeds, `reset_hardware` itself already returns normally. -/
theorem claim_C2 (env env' : Env)
    (hcap : env.captureOk = env'.captureOk)
    (hcapt : env.captionOk = env'.captionOk)
    (hcomp : env.composeOk = env'.composeOk)
    (hpe : env.printerEnv = env'.printerEnv)
    (hcs : env.caption = env'.caption)
    (hps : env.poem = env'.poem) :
    (loop_iter env).2 = Except.ok () ∧
    run_outcome env = run_outcome env' ∧
    (env.resetCamOk = true → env.resetPrinterOk = false →
      (reset_hardware env).2 = Except.ok ()) := by
  refine ⟨loop_iter_ok env, ?_, ?_⟩
  · obtain ⟨cap, capt, comp, pe, rc, rp, cs, ps⟩ := env
    obtain ⟨cap', capt', comp', pe', rc', rp', cs', ps'⟩ := env'
    simp only at hcap hcapt hcomp hpe hcs hps
    subst hcap hcapt hcomp hpe hcs hps
    rfl
  · intro h1 _h2
    simp [reset_hardware, h1]

/-- C2 witness: Scenario E against an identical-stage environment whose
reset behaves normally. -/
theorem claim_C2_witness :
    envE.captureOk = envE'.captureOk ∧
    envE.captionOk = envE'.captionOk ∧
    envE.composeOk = envE'.composeOk ∧
    envE.printerEnv = envE'.printerEnv ∧
    envE.caption = envE'.caption ∧
    envE.poem = envE'.poem ∧
    ((loop_iter envE).2 = Except.ok () ∧
     run_outcome envE = run_outcome envE' ∧
     (envE.resetCamOk = true → envE.resetPrinterOk = false →
       (reset_hardware envE).2 = Except.ok ())) :=
  ⟨rfl, rfl, rfl, rfl, rfl, rfl, claim_C2 envE envE' rfl rfl rfl rfl rfl rfl⟩

/-- C7: in every run whose capture stage fails (camera restart assumed to
complete, as in Scenario B), the run result is `None` and the logged
outcome is Failed, the caption, compose, and print stages are never
invoked, and the reset step is invoked exactly once. -/
theorem claim_C7 (env : Env) (h1 : env.captureOk = false)
    (h2 : env.resetCamOk = true) :
    (process_photo_and_generate_poem env).2 = none ∧
    run_outcome env = false ∧
    Event.captionCall ∉ (loop_iter env).1 ∧
    (∀ s u, Event.composeCall s u ∉ (loop_iter env).1) ∧
    Event.printCall ∉ (loop_iter env).1 ∧
    countResets (loop_iter env).1 = 1 := by
  have hp : process_photo_and_generate_poem env = ([Event.capture], none) := by
    simp [process_photo_and_generate_poem, runStages, take_photo, h1]
  have htr : (loop_iter env).1
      = [Event.waitPress, Event.capture, Event.resetCamEv, Event.resetPrinterEv] := by
    rw [loop_iter_trace_of_resetOk env h2, hp]
    rfl
  refine ⟨by simp [hp], by simp [run_outcome, hp], ?_, ?_, ?_, ?_⟩
  · rw [htr]; simp
  · intro s u; rw [htr]; simp
  · rw [htr]; simp
  · rw [htr]; rfl

/-- C7 witness: Scenario B. -/
theorem claim_C7_witness :
    envB.captureOk = false ∧ envB.resetCamOk = true ∧
    ((process_photo_and_generate_poem envB).2 = none ∧
     run_outcome envB = false ∧
     Event.captionCall ∉ (loop_iter envB).1 ∧
     (∀ s u, Event.composeCall s u ∉ (loop_iter envB).1) ∧
     Event.printCall ∉ (loop_iter envB).1 ∧
     countResets (loop_iter envB).1 = 1) :=
  ⟨rfl, rfl, claim_C7 envB rfl rfl⟩

/-- C4: on a fault-free channel, the byte stream `print_text` sends
begins with the reset sequence `1B 40`, continues with the center-align
sequence `1B 61 01` followed immediately by the encoded text payload, and
ends with at least four line-feed bytes followed by the cut sequence
`1D 56 41 03`, for every input text. -/
theorem claim_C4 (env : PrinterEnv) (text : String)
    (h1 : env.openOk = true) (h2 : env.writeFailAt = none) :
    (sentBytes (print_text env text).1).take 2 = [27, 64] ∧
    (∃ tail, sentBytes (print_text env text).1
        = [27, 64] ++ ([27, 97, 1] ++ (encodeAscii text ++ tail))) ∧
    (∃ pre lfs, sentBytes (print_text env text).1 = pre ++ (lfs ++ [29, 86, 65, 3]) ∧
      4 ≤ lfs.length ∧ ∀ b ∈ lfs, b = 10) := by
  have hb := print_text_bytes env text h1 h2
  have hb' : sentBytes (print_text env text).1
      = [27, 64] ++ ([27, 97, 1] ++ (encodeAscii text ++ (feedSeq ++ cutSeq))) := by
    rw [hb]; simp [resetSeq, centerSeq]
  refine ⟨?_, ⟨feedSeq ++ cutSeq, hb'⟩, ⟨resetSeq ++ (centerSeq ++ encodeAscii text),
    feedSeq, ?_, by decide, by decide⟩⟩
  · rw [hb']; rfl
  · rw [hb]; simp [cutSeq]

/-- C4 witness at the text `"hi"` on a fault-free channel. -/
theorem claim_C4_witness :
    (PrinterEnv.mk true none).openOk = true ∧
    (PrinterEnv.mk true none).writeFailAt = none ∧
    ((sentBytes (print_text (PrinterEnv.mk true none) "hi").1).take 2 = [27, 64] ∧
     (∃ tail, sentBytes (print_text (PrinterEnv.mk true none) "hi").1
         = [27, 64] ++ ([27, 97, 1] ++ (encodeAscii "hi" ++ tail))) ∧
     (∃ pre lfs, sentBytes (print_text (PrinterEnv.mk true none) "hi").1
         = pre ++ (lfs ++ [29, 86, 65, 3]) ∧
       4 ≤ lfs.length ∧ ∀ b ∈ lfs, b = 10)) :=
  ⟨rfl, rfl, claim_C4 (PrinterEnv.mk true none) "hi" rfl rfl⟩

/-- C6: every error escaping `print_text` is the single printer error
carrying the underlying channel fault, and whenever the channel was
opened, the last channel action is the close — the channel is never left
open, on success or on failure. -/
theorem claim_C6 (env : PrinterEnv) (text : String) :
    (∀ e, (print_text env text).2 = Except.error e → faultOf env = some e) ∧
    (ChEvent.openCh ∈ (print_text env text).1 →
      (print_text env text).1.getLast? = some ChEvent.closeCh) :=
  ⟨fun e he => print_text_error_surfaces env text e he,
   fun hm => print_text_closes env text hm⟩

/-- C6 witness: a channel whose third write call (the text payload)
faults. -/
theorem claim_C6_witness :
    (∀ e, (print_text (PrinterEnv.mk true (some 2)) "x").2 = Except.error e →
      faultOf (PrinterEnv.mk true (some 2)) = some e) ∧
    (ChEvent.openCh ∈ (print_text (PrinterEnv.mk true (some 2)) "x").1 →
      (print_text (PrinterEnv.mk true (some 2)) "x").1.getLast?
        = some ChEvent.closeCh) :=
  claim_C6 (PrinterEnv.mk true (some 2)) "x"

theorem sentBytesE_printCall_map (tr : List ChEvent) :
    sentBytesE (Event.printCall :: tr.map Event.printerCh) = sentBytes tr := by
  induction tr with
  | nil => rfl
  | cons e rest ih =>
    cases e <;> simp only [List.map_cons] <;>
      simp only [sentBytesE, sentBytes] at * <;> simp [ih]

/-- C8: on a fault-free channel, the payload `print_poem` transmits is
exactly the ASCII-with-replacement encoding of the poem wrapped in one
leading and one trailing newline, framed by the protocol bytes; the call
returns normally (characters outside ASCII are substituted with the fixed
glyph 63 instead of failing); and for the poem `"line1\nline2"` the
stream contains the encoding of `"\nline1\nline2\n"` as a contiguous
segment. -/
theorem claim_C8 (env : Env) (poem : String)
    (h1 : env.printerEnv.openOk = true) (h2 : env.printerEnv.writeFailAt = none) :
    sentBytesE (print_poem env poem).1
      = resetSeq ++ centerSeq ++ encodeAscii ("\n" ++ poem ++ "\n")
          ++ feedSeq ++ cutSeq ∧
    (print_poem env poem).2 = Except.ok () ∧
    (∀ c : Char, 127 < c.toNat → asciiReplace c = 63) ∧
    (poem = "line1\nline2" →
      ∃ l r, sentBytesE (print_poem env poem).1
          = l ++ (encodeAscii "\nline1\nline2\n" ++ r)) := by
  have hbytes : sentBytesE (print_poem env poem).1
      = resetSeq ++ centerSeq ++ encodeAscii ("\n" ++ poem ++ "\n")
          ++ feedSeq ++ cutSeq := by
    show sentBytesE (Event.printCall ::
        (print_text env.printerEnv ("\n" ++ poem ++ "\n")).1.map Event.printerCh) = _
    rw [sentBytesE_printCall_map]
    exact print_text_bytes env.printerEnv ("\n" ++ poem ++ "\n") h1 h2
  refine ⟨hbytes, ?_, ?_, ?_⟩
  · simp [print_poem, print_text_ok env.printerEnv ("\n" ++ poem ++ "\n") h1 h2]
  · intro c hc
    rw [asciiReplace, if_neg (by omega)]
  · intro hpoem
    subst hpoem
    refine ⟨resetSeq ++ centerSeq, feedSeq ++ cutSeq, ?_⟩
    rw [hbytes]
    have henc : ("\n" ++ "line1\nline2" ++ "\n" : String) = "\nline1\nline2\n" := by decide
    rw [henc]
    simp

/-- C8 witness: Scenario D, the successful run printing
`"line1\nline2"`. -/
theorem claim_C8_witness :
    env0.printerEnv.openOk = true ∧
    env0.printerEnv.writeFailAt = none ∧
    (sentBytesE (print_poem env0 "line1\nline2").1
       = resetSeq ++ centerSeq ++ encodeAscii ("\n" ++ "line1\nline2" ++ "\n")
           ++ feedSeq ++ cutSeq ∧
     (print_poem env0 "line1\nline2").2 = Except.ok () ∧
     (∀ c : Char, 127 < c.toNat → asciiReplace c = 63) ∧
     ("line1\nline2" = "line1\nline2" →
       ∃ l r, sentBytesE (print_poem env0 "line1\nline2").1
           = l ++ (encodeAscii "\nline1\nline2\n" ++ r))) :=
  ⟨rfl, rfl, claim_C8 env0 "line1\nline2" rfl rfl⟩

/-- C9: if either required credential is absent at startup,
initialization raises before the trigger-wait loop is entered, the
process exits non-zero, and no pipeline run is started — the trace is
empty, so in particular no trigger wait and no capture ever happens. -/
theorem claim_C9 (cfg : Config) (presses : List Env)
    (h : cfg.openaiKey = none ∨ cfg.replicateToken = none) :
    (main_run cfg presses).2 = MainResult.exitNonzero ∧
    (main_run cfg presses).1 = [] ∧
    Event.waitPress ∉ (main_run cfg presses).1 ∧
    Event.capture ∉ (main_run cfg presses).1 := by
  have hfail : ∃ e, setup_environment cfg = Except.error e := by
    rcases h with h | h
    · exact ⟨StartErr.missingVar "OPENAI_API_KEY", by simp [setup_environment, _get_env_var, h]⟩
    · rcases ho : cfg.openaiKey with _ | s
      · exact ⟨StartErr.missingVar "OPENAI_API_KEY",
          by simp [setup_environment, _get_env_var, ho]⟩
      · by_cases hs : s = ""
        · exact ⟨StartErr.missingVar "OPENAI_API_KEY",
            by simp [setup_environment, _get_env_var, ho, hs]⟩
        · exact ⟨StartErr.missingVar "REPLICATE_API_TOKEN",
            by simp [setup_environment, _get_env_var, ho, hs, h]⟩
  obtain ⟨e, he⟩ := hfail
  have hm : main_run cfg presses = ([], MainResult.exitNonzero) := by
    simp [main_run, poemGenerator_init, he]
  refine ⟨by rw [hm], by rw [hm], by rw [hm]; simp, by rw [hm]; simp⟩

/-- C9 witness: a configuration with the Replicate token absent. -/
theorem claim_C9_witness :
    ((Config.mk (some "sk-test") none true).openaiKey = none ∨
     (Config.mk (some "sk-test") none true).replicateToken = none) ∧
    ((main_run (Config.mk (some "sk-test") none true) [env0]).2
        = MainResult.exitNonzero ∧
     (main_run (Config.mk (some "sk-test") none true) [env0]).1 = [] ∧
     Event.waitPress ∉ (main_run (Config.mk (some "sk-test") none true) [env0]).1 ∧
     Event.capture ∉ (main_run (Config.mk (some "sk-test") none true) [env0]).1) :=
  ⟨Or.inr rfl, claim_C9 (Config.mk (some "sk-test") none true) [env0] (Or.inr rfl)⟩

end PoemAppliance
